import Mathlib

/-!
Shallow embedding of the Kelly emotion core
(src/core/emotion_engine.cpp, src/core/intent_processor.{h,cpp}).

C++ `float` values are modelled as exact rationals (`ℚ`); the decimal
literals of the source are exact in this model.  `std::map` keyed by
strings is modelled as a key-sorted association list with overwriting
insert, matching `std::map`'s ordered iteration and `operator[]`
semantics.  `std::any` values are modelled by the tagged `MusicalValue`
type (numbers, booleans, strings are the only payloads the source stores).
The header `emotion_engine.h` is not in the tree; the `EmotionNode`
fields below are read off from the aggregate initializer in
`EmotionEngine::initializeEmotions` (the seventh field, initialized `{}`
and never read by any operation, is omitted).
-/

namespace Kelly

inductive EmotionCategory
  | Joy | Sadness | Anger | Fear | Surprise | Disgust | Trust | Anticipation
  deriving DecidableEq, Repr

structure MusicalAttributes where
  tempoModifier : ℚ
  mode : String
  dynamics : ℚ
  deriving DecidableEq, Repr

structure EmotionNode where
  id : ℤ
  name : String
  category : EmotionCategory
  intensity : ℚ
  valence : ℚ
  arousal : ℚ
  musicalAttributes : MusicalAttributes
  deriving DecidableEq, Repr

/-- One (name, base valence, base arousal) row of the variant table in
`EmotionEngine::initializeEmotions`. -/
structure Variant where
  vname : String
  valence : ℚ
  arousal : ℚ
  deriving DecidableEq, Repr

/-- The fixed 8 × 9 variant table, transcribed from
`EmotionEngine::initializeEmotions`. -/
def categoryVariants : List (EmotionCategory × List Variant) :=
  [(EmotionCategory.Joy, [
      ⟨"euphoria", 1.0, 1.0⟩, ⟨"ecstasy", 0.95, 0.95⟩, ⟨"elation", 0.85, 0.9⟩,
      ⟨"delight", 0.8, 0.7⟩, ⟨"happiness", 0.7, 0.6⟩, ⟨"contentment", 0.7, 0.3⟩,
      ⟨"serenity", 0.6, 0.2⟩, ⟨"satisfaction", 0.5, 0.4⟩, ⟨"cheerfulness", 0.6, 0.5⟩]),
   (EmotionCategory.Sadness, [
      ⟨"grief", -0.9, 0.7⟩, ⟨"despair", -0.95, 0.6⟩, ⟨"sorrow", -0.8, 0.5⟩,
      ⟨"melancholy", -0.6, 0.3⟩, ⟨"gloom", -0.5, 0.4⟩, ⟨"disappointment", -0.4, 0.3⟩,
      ⟨"loneliness", -0.6, 0.2⟩, ⟨"nostalgia", -0.3, 0.2⟩, ⟨"wistfulness", -0.2, 0.15⟩]),
   (EmotionCategory.Anger, [
      ⟨"rage", -0.8, 1.0⟩, ⟨"fury", -0.85, 0.95⟩, ⟨"wrath", -0.75, 0.9⟩,
      ⟨"hostility", -0.6, 0.7⟩, ⟨"resentment", -0.5, 0.5⟩, ⟨"annoyance", -0.4, 0.5⟩,
      ⟨"irritation", -0.35, 0.45⟩, ⟨"frustration", -0.45, 0.55⟩, ⟨"bitterness", -0.5, 0.4⟩]),
   (EmotionCategory.Fear, [
      ⟨"terror", -0.9, 1.0⟩, ⟨"panic", -0.85, 0.95⟩, ⟨"horror", -0.8, 0.9⟩,
      ⟨"dread", -0.7, 0.7⟩, ⟨"anxiety", -0.5, 0.8⟩, ⟨"worry", -0.4, 0.6⟩,
      ⟨"unease", -0.3, 0.5⟩, ⟨"apprehension", -0.35, 0.55⟩, ⟨"nervousness", -0.3, 0.65⟩]),
   (EmotionCategory.Surprise, [
      ⟨"amazement", 0.6, 0.95⟩, ⟨"astonishment", 0.5, 0.9⟩, ⟨"awe", 0.4, 0.7⟩,
      ⟨"wonder", 0.5, 0.6⟩, ⟨"shock", -0.1, 0.9⟩, ⟨"startle", 0.0, 0.85⟩,
      ⟨"bewilderment", -0.1, 0.6⟩, ⟨"confusion", -0.2, 0.5⟩, ⟨"curiosity", 0.3, 0.5⟩]),
   (EmotionCategory.Disgust, [
      ⟨"revulsion", -0.9, 0.8⟩, ⟨"loathing", -0.85, 0.7⟩, ⟨"abhorrence", -0.8, 0.75⟩,
      ⟨"contempt", -0.6, 0.5⟩, ⟨"aversion", -0.5, 0.45⟩, ⟨"distaste", -0.4, 0.35⟩,
      ⟨"dislike", -0.3, 0.3⟩, ⟨"disapproval", -0.35, 0.4⟩, ⟨"repugnance", -0.7, 0.6⟩]),
   (EmotionCategory.Trust, [
      ⟨"admiration", 0.8, 0.5⟩, ⟨"adoration", 0.85, 0.6⟩, ⟨"devotion", 0.75, 0.55⟩,
      ⟨"faith", 0.7, 0.4⟩, ⟨"confidence", 0.6, 0.5⟩, ⟨"reliance", 0.5, 0.35⟩,
      ⟨"acceptance", 0.4, 0.3⟩, ⟨"respect", 0.55, 0.4⟩, ⟨"appreciation", 0.5, 0.45⟩]),
   (EmotionCategory.Anticipation, [
      ⟨"eagerness", 0.7, 0.85⟩, ⟨"excitement", 0.75, 0.9⟩, ⟨"hope", 0.6, 0.6⟩,
      ⟨"expectation", 0.4, 0.55⟩, ⟨"vigilance", 0.1, 0.7⟩, ⟨"interest", 0.35, 0.5⟩,
      ⟨"optimism", 0.65, 0.55⟩, ⟨"yearning", 0.2, 0.6⟩, ⟨"impatience", -0.1, 0.7⟩])]

/-- `constexpr float intensityLevels[3] = {1.0f, 0.6f, 0.3f};` -/
def intensityLevels : List ℚ := [1.0, 0.6, 0.3]

/-- The (category, variant, tier) triples in the order the three nested
loops of `EmotionEngine::initializeEmotions` visit them. -/
def generationTriples : List (EmotionCategory × Variant × ℚ) :=
  categoryVariants.flatMap fun cv =>
    cv.2.flatMap fun v =>
      intensityLevels.map fun t => (cv.1, v, t)

/-- `EmotionEngine::initializeEmotions`: the catalog entries in generation
order; the running `nodeId` of the loop is the position in this list. -/
def initializeEmotions : List EmotionNode :=
  generationTriples.enum.map fun p =>
    let v : Variant := p.2.2.1
    let intensity : ℚ := p.2.2.2
    { id := Int.ofNat p.1
      name := v.vname ++
        (if intensity = 1.0 then "" else if intensity = 0.6 then "_mid" else "_low")
      category := p.2.1
      intensity := intensity
      valence := v.valence * intensity
      arousal := v.arousal * intensity
      musicalAttributes :=
        { tempoModifier := 1.0 + (v.arousal * intensity - 0.5) * 0.5
          mode := if v.valence > 0 then "major" else "minor"
          dynamics := intensity } }

/-- The catalog store `nodes_` of an `EmotionEngine` instance. -/
structure EmotionEngine where
  nodes_ : List EmotionNode
  deriving DecidableEq, Repr

/-- `EmotionEngine::EmotionEngine()`: the constructor fills `nodes_` via
`initializeEmotions`. -/
def EmotionEngine.make : EmotionEngine := ⟨initializeEmotions⟩

/-- `EmotionEngine::getEmotion`: id lookup, null pointer modelled as
`none`. -/
def EmotionEngine.getEmotion (e : EmotionEngine) (emotionId : ℤ) : Option EmotionNode :=
  e.nodes_.find? fun n => n.id == emotionId

/-- `EmotionEngine::findEmotionByName`: scan for an exact name match. -/
def EmotionEngine.findEmotionByName (e : EmotionEngine) (name : String) : Option EmotionNode :=
  e.nodes_.find? fun n => n.name == name

/-- The squared Euclidean distance `dv*dv + da*da + di*di` computed by
`EmotionEngine::calculateDistance` before the final `std::sqrt`. -/
def distSq (a b : EmotionNode) : ℚ :=
  (a.valence - b.valence) * (a.valence - b.valence) +
  (a.arousal - b.arousal) * (a.arousal - b.arousal) +
  (a.intensity - b.intensity) * (a.intensity - b.intensity)

/-- `EmotionEngine::calculateDistance`: `sqrt(dv*dv + da*da + di*di)`. -/
noncomputable def calculateDistance (a b : EmotionNode) : ℝ :=
  Real.sqrt (distSq a b : ℚ)

/-- Comparing a real square root of a rational against a rational is
decidable: `√q < t ↔ 0 < t ∧ q < t²`. -/
instance instDecidableDistLt (a b : EmotionNode) (t : ℚ) :
    Decidable (calculateDistance a b < (t : ℝ)) :=
  decidable_of_iff (0 < t ∧ distSq a b < t ^ 2) (by
    unfold calculateDistance
    constructor
    · rintro ⟨ht, hq⟩
      rw [Real.sqrt_lt' (by exact_mod_cast ht)]
      exact_mod_cast hq
    · intro h
      have ht : (0 : ℝ) < (t : ℝ) := lt_of_le_of_lt (Real.sqrt_nonneg _) h
      have ht2 : (0 : ℚ) < t := by exact_mod_cast ht
      refine ⟨ht2, ?_⟩
      rw [Real.sqrt_lt' ht] at h
      exact_mod_cast h)

/-- `EmotionEngine::getNearbyEmotions`: all entries other than the source
at distance strictly below the threshold; empty when the source id is
unknown. -/
def EmotionEngine.getNearbyEmotions (e : EmotionEngine) (emotionId : ℤ) (threshold : ℚ) :
    List EmotionNode :=
  match e.getEmotion emotionId with
  | none => []
  | some source =>
      e.nodes_.filter fun node =>
        !(node.id == emotionId) && decide (calculateDistance source node < (threshold : ℝ))

/-- `Wound` (intent_processor.h). -/
structure Wound where
  description : String
  intensity : ℚ
  source : String
  deriving DecidableEq, Repr

/-- A tagged model of the `std::any` payloads the source actually stores
(numbers, booleans, strings). -/
inductive MusicalValue
  | num : ℚ → MusicalValue
  | bool : Bool → MusicalValue
  | str : String → MusicalValue
  deriving DecidableEq, Repr

/-- Model of `std::map<std::string, std::any>`: a key-sorted association
list. -/
abbrev StrMap := List (String × MusicalValue)

/-- Lexicographic comparison of character lists, the semantics of
`std::less<std::string>` on the byte strings the source uses. -/
def charListLess : List Char → List Char → Bool
  | [], [] => false
  | [], _ :: _ => true
  | _ :: _, [] => false
  | a :: as, b :: bs =>
    if a.val < b.val then true
    else if b.val < a.val then false
    else charListLess as bs

/-- `std::string` comparison used by the map key order. -/
def stringLess (a b : String) : Bool := charListLess a.toList b.toList

/-- `std::map` insertion (`operator[] =`): overwrite the value of an
existing key, otherwise insert keeping keys sorted. -/
def StrMap.insert : StrMap → String → MusicalValue → StrMap
  | [], k, v => [(k, v)]
  | (k₂, v₂) :: rest, k, v =>
    if stringLess k k₂ then (k, v) :: (k₂, v₂) :: rest
    else if k = k₂ then (k, v) :: rest
    else (k₂, v₂) :: StrMap.insert rest k v

/-- `std::map::find` by key. -/
def StrMap.find? : StrMap → String → Option MusicalValue
  | [], _ => none
  | (k₂, v₂) :: rest, k => if k = k₂ then some v₂ else StrMap.find? rest k

/-- `RuleBreak` (intent_processor.h). -/
structure RuleBreak where
  ruleType : String
  severity : ℚ
  description : String
  musicalImpact : StrMap
  deriving DecidableEq, Repr

/-- `IntentResult` (intent_processor.h); the borrowed `EmotionNode*` is an
`Option` (null ↦ `none`). -/
structure IntentResult where
  wound : Wound
  emotion : Option EmotionNode
  ruleBreaks : List RuleBreak
  musicalParams : StrMap
  deriving DecidableEq, Repr

/-- The state of an `IntentProcessor` instance: its engine and the two
append-only logs. -/
structure IntentProcessor where
  engine_ : EmotionEngine
  woundHistory_ : List Wound
  ruleBreaks_ : List RuleBreak
  deriving DecidableEq, Repr

/-- `IntentProcessor::IntentProcessor()`: default-constructs the engine,
whose constructor builds the catalog; both logs start empty. -/
def IntentProcessor.make : IntentProcessor := ⟨EmotionEngine.make, [], []⟩

/-- Naive substring search over character lists, the semantics of
`std::string::find(pat) != npos`. -/
def strContains (s pat : List Char) : Bool :=
  (List.range (s.length + 1)).any fun i =>
    pat.isPrefixOf (s.drop i)

/-- `IntentProcessor::processWound`: append to the wound history,
lower-case the description, and classify by the fixed keyword priority
list. -/
def IntentProcessor.processWound (p : IntentProcessor) (wound : Wound) :
    IntentProcessor × Option EmotionNode :=
  let p₂ := { p with woundHistory_ := p.woundHistory_ ++ [wound] }
  let desc := wound.description.toList.map Char.toLower
  if strContains desc "loss".toList || strContains desc "grief".toList then
    (p₂, p.engine_.findEmotionByName "grief")
  else if strContains desc "anger".toList || strContains desc "rage".toList then
    (p₂, p.engine_.findEmotionByName "rage")
  else if strContains desc "fear".toList || strContains desc "anxiety".toList then
    (p₂, p.engine_.findEmotionByName "anxiety")
  else
    (p₂, p.engine_.findEmotionByName "melancholy")

/-- The list of rule breaks built by `IntentProcessor::emotionToRuleBreaks`
before it appends them to the log. -/
def ruleBreaksFor (emotion : EmotionNode) : List RuleBreak :=
  (if emotion.intensity > 0.8 then
    [{ ruleType := "dynamics"
       severity := emotion.intensity
       description := "Extreme dynamic contrasts"
       musicalImpact :=
         StrMap.insert (StrMap.insert (StrMap.insert []
           "velocity_min" (.num 10)) "velocity_max" (.num 127))
           "sudden_changes" (.bool true) }]
   else []) ++
  (if emotion.valence < -0.5 then
    [{ ruleType := "harmony"
       severity := |emotion.valence|
       description := "Dissonant intervals and clusters"
       musicalImpact :=
         StrMap.insert (StrMap.insert [] "allow_dissonance" (.bool true))
           "cluster_probability" (.num |emotion.valence|) }]
   else []) ++
  (if emotion.arousal > 0.7 then
    [{ ruleType := "rhythm"
       severity := emotion.arousal
       description := "Irregular rhythms and syncopation"
       musicalImpact :=
         StrMap.insert (StrMap.insert [] "syncopation_level" (.num emotion.arousal))
           "irregular_meters" (.bool true) }]
   else [])

/-- `IntentProcessor::emotionToRuleBreaks`: build the breaks, append them
to the cumulative log, and return them. -/
def IntentProcessor.emotionToRuleBreaks (p : IntentProcessor) (emotion : EmotionNode) :
    IntentProcessor × List RuleBreak :=
  let breaks := ruleBreaksFor emotion
  ({ p with ruleBreaks_ := p.ruleBreaks_ ++ breaks }, breaks)

/-- `IntentProcessor::compileMusicalParams`: seed with the three base
entries, then overlay every rule break's impact map in order. -/
def compileMusicalParams (emotion : EmotionNode) (ruleBreaks : List RuleBreak) : StrMap :=
  let params : StrMap :=
    StrMap.insert (StrMap.insert (StrMap.insert []
      "tempo_modifier" (.num emotion.musicalAttributes.tempoModifier))
      "mode" (.str emotion.musicalAttributes.mode))
      "dynamics" (.num emotion.musicalAttributes.dynamics)
  ruleBreaks.foldl
    (fun acc rb => rb.musicalImpact.foldl (fun m kv => StrMap.insert m kv.1 kv.2) acc) params

/-- `IntentProcessor::processIntent`: classify, derive rule breaks, and
compile the parameters; a failed emotion lookup degrades to empty breaks
and parameters. -/
def IntentProcessor.processIntent (p : IntentProcessor) (wound : Wound) :
    IntentProcessor × IntentResult :=
  match p.processWound wound with
  | (p₂, some e) =>
      let r := p₂.emotionToRuleBreaks e
      (r.1, { wound := wound, emotion := some e, ruleBreaks := r.2,
              musicalParams := compileMusicalParams e r.2 })
  | (p₂, none) =>
      (p₂, { wound := wound, emotion := none, ruleBreaks := [], musicalParams := [] })

end Kelly

namespace Kelly

set_option maxRecDepth 100000 in
unseal Rat.ofScientific Rat.mul Rat.sub Rat.add Rat.inv in
/-- C1: after `EmotionEngine` construction the catalog holds exactly 216
entries; their ids are exactly 0,…,215 in generation order (categories
outer in declaration order — each category contributing 27 consecutive
entries — variants middle, tiers 1.0, 0.6, 0.3 inner), and the 216 names
are pairwise distinct. -/
theorem C1_catalog_shape :
    EmotionEngine.make.nodes_.length = 216 ∧
    EmotionEngine.make.nodes_.map (fun n => n.id) = (List.range 216).map Int.ofNat ∧
    EmotionEngine.make.nodes_.map (fun n => n.category) =
      (categoryVariants.map (fun cv => List.replicate 27 cv.1)).flatten ∧
    EmotionEngine.make.nodes_.map (fun n => n.intensity) =
      (List.replicate 72 intensityLevels).flatten ∧
    (EmotionEngine.make.nodes_.map (fun n => n.name)).Nodup :=
  ⟨rfl, by decide, by decide, by decide, by decide⟩

/-- C6: every generated entry arises from a variant row of the table and a
tier, with valence and arousal scaled by the tier, the tier suffix on the
name, and the musical attributes given by the documented formulas. -/
theorem C6_field_formulas :
    ∀ n ∈ initializeEmotions, ∃ cv ∈ categoryVariants, ∃ v ∈ cv.2, ∃ t ∈ intensityLevels,
      n.category = cv.1 ∧
      n.intensity = t ∧
      n.valence = v.valence * t ∧
      n.arousal = v.arousal * t ∧
      (t = 1.0 → n.name = v.vname) ∧
      (t = 0.6 → n.name = v.vname ++ "_mid") ∧
      (t = 0.3 → n.name = v.vname ++ "_low") ∧
      n.musicalAttributes.tempoModifier = 1.0 + (n.arousal - 0.5) * 0.5 ∧
      (0 < v.valence → n.musicalAttributes.mode = "major") ∧
      (v.valence ≤ 0 → n.musicalAttributes.mode = "minor") ∧
      n.musicalAttributes.dynamics = t := by
  intro n hn
  unfold initializeEmotions at hn
  rw [List.mem_map] at hn
  obtain ⟨⟨i, trip⟩, hmem, rfl⟩ := hn
  rw [List.mem_enum_iff_getElem?] at hmem
  have htrip : trip ∈ generationTriples := List.getElem?_mem hmem
  unfold generationTriples at htrip
  rw [List.mem_flatMap] at htrip
  obtain ⟨cv, hcv, htrip⟩ := htrip
  rw [List.mem_flatMap] at htrip
  obtain ⟨v, hv, htrip⟩ := htrip
  rw [List.mem_map] at htrip
  obtain ⟨t, ht, rfl⟩ := htrip
  refine ⟨cv, hcv, v, hv, t, ht, rfl, rfl, rfl, rfl, ?_, ?_, ?_, rfl, ?_, ?_, rfl⟩
  · intro h1
    show v.vname ++ (if t = 1.0 then "" else if t = 0.6 then "_mid" else "_low") = v.vname
    rw [if_pos h1, String.append_empty]
  · intro h6
    show v.vname ++ (if t = 1.0 then "" else if t = 0.6 then "_mid" else "_low") = v.vname ++ "_mid"
    rw [if_neg (by rw [h6]; norm_num), if_pos h6]
  · intro h3
    show v.vname ++ (if t = 1.0 then "" else if t = 0.6 then "_mid" else "_low") = v.vname ++ "_low"
    rw [if_neg (by rw [h3]; norm_num), if_neg (by rw [h3]; norm_num)]
  · intro hpos
    show (if v.valence > 0 then "major" else "minor") = "major"
    rw [if_pos hpos]
  · intro hle
    show (if v.valence > 0 then "major" else "minor") = "minor"
    rw [if_neg (not_lt.mpr hle)]

unseal Rat.ofScientific Rat.mul Rat.sub Rat.add Rat.inv in
theorem C6_field_formulas_witness :
    ∃ cv ∈ categoryVariants, ∃ v ∈ cv.2, ∃ t ∈ intensityLevels,
      ({ id := 0, name := "euphoria", category := EmotionCategory.Joy, intensity := 1,
         valence := 1, arousal := 1,
         musicalAttributes := ⟨1.25, "major", 1⟩ } : EmotionNode).category = cv.1 ∧
      (1 : ℚ) = t ∧ (1 : ℚ) = v.valence * t ∧ (1 : ℚ) = v.arousal * t ∧
      (t = 1.0 → "euphoria" = v.vname) ∧
      (t = 0.6 → "euphoria" = v.vname ++ "_mid") ∧
      (t = 0.3 → "euphoria" = v.vname ++ "_low") ∧
      (1.25 : ℚ) = 1.0 + ((1 : ℚ) - 0.5) * 0.5 ∧
      (0 < v.valence → "major" = "major") ∧
      (v.valence ≤ 0 → "major" = "minor") ∧
      (1 : ℚ) = t :=
  C6_field_formulas _ (by decide)

/-- C7: `calculateDistance` is the Euclidean distance over the
(valence, arousal, intensity) point: it satisfies the square-root-of-sums
formula, is symmetric, vanishes on the diagonal, and vanishes exactly when
the two entries occupy the same point (which does not constrain their
ids). -/
theorem C7_distance_metric (a b : EmotionNode) :
    calculateDistance a b =
      Real.sqrt (((a.valence : ℝ) - b.valence) ^ 2 + ((a.arousal : ℝ) - b.arousal) ^ 2 +
        ((a.intensity : ℝ) - b.intensity) ^ 2) ∧
    calculateDistance a b = calculateDistance b a ∧
    calculateDistance a a = 0 ∧
    (calculateDistance a b = 0 ↔
      (a.valence, a.arousal, a.intensity) = (b.valence, b.arousal, b.intensity)) := by
  have hsq : ∀ x y : EmotionNode, calculateDistance x y =
      Real.sqrt (((x.valence : ℝ) - y.valence) ^ 2 + ((x.arousal : ℝ) - y.arousal) ^ 2 +
        ((x.intensity : ℝ) - y.intensity) ^ 2) := by
    intro x y
    unfold calculateDistance distSq
    congr 1
    push_cast
    ring
  refine ⟨hsq a b, ?_, ?_, ?_⟩
  · rw [hsq a b, hsq b a]
    congr 1
    ring
  · rw [hsq a a]
    simp
  · unfold calculateDistance
    rw [Real.sqrt_eq_zero']
    constructor
    · intro h
      have h0 : distSq a b ≤ 0 := by exact_mod_cast h
      have hv : (a.valence - b.valence) * (a.valence - b.valence) = 0 := by
        unfold distSq at h0
        nlinarith [mul_self_nonneg (a.valence - b.valence),
          mul_self_nonneg (a.arousal - b.arousal),
          mul_self_nonneg (a.intensity - b.intensity)]
      have ha : (a.arousal - b.arousal) * (a.arousal - b.arousal) = 0 := by
        unfold distSq at h0
        nlinarith [mul_self_nonneg (a.valence - b.valence),
          mul_self_nonneg (a.arousal - b.arousal),
          mul_self_nonneg (a.intensity - b.intensity)]
      have hi : (a.intensity - b.intensity) * (a.intensity - b.intensity) = 0 := by
        unfold distSq at h0
        nlinarith [mul_self_nonneg (a.valence - b.valence),
          mul_self_nonneg (a.arousal - b.arousal),
          mul_self_nonneg (a.intensity - b.intensity)]
      have hv2 := sub_eq_zero.mp (mul_self_eq_zero.mp hv)
      have ha2 := sub_eq_zero.mp (mul_self_eq_zero.mp ha)
      have hi2 := sub_eq_zero.mp (mul_self_eq_zero.mp hi)
      simp [hv2, ha2, hi2]
    · intro h
      rw [Prod.ext_iff, Prod.ext_iff] at h
      obtain ⟨hv, ha, hi⟩ := h
      simp only at hv ha hi
      have : distSq a b = 0 := by
        unfold distSq
        rw [hv, ha, hi]
        ring
      rw [this]
      norm_num

/-- C8: a neighborhood query never returns the source entry, every entry
it returns lies strictly within the threshold, as a set it holds exactly
the other catalog entries within that bound, and an unknown source id
yields the empty result. -/
theorem C8_neighbors (e : EmotionEngine) (i : ℤ) (t : ℚ) :
    (e.getEmotion i = none → e.getNearbyEmotions i t = []) ∧
    (∀ src, e.getEmotion i = some src →
      ∀ n, n ∈ e.getNearbyEmotions i t ↔
        (n ∈ e.nodes_ ∧ n.id ≠ i ∧ calculateDistance src n < (t : ℝ))) := by
  constructor
  · intro h
    unfold EmotionEngine.getNearbyEmotions
    rw [h]
  · intro src hsrc n
    unfold EmotionEngine.getNearbyEmotions
    rw [hsrc]
    rw [List.mem_filter]
    simp only [Bool.and_eq_true, Bool.not_eq_true', beq_eq_false_iff_ne, decide_eq_true_eq]

unseal Rat.ofScientific Rat.mul Rat.sub Rat.add Rat.inv in
theorem C8_neighbors_witness :
    (EmotionEngine.make.getNearbyEmotions 216 (1/2) = []) ∧
    (({ id := 3, name := "ecstasy", category := EmotionCategory.Joy, intensity := 1,
        valence := 0.95, arousal := 0.95,
        musicalAttributes := ⟨1.225, "major", 1⟩ } : EmotionNode) ∈
        EmotionEngine.make.getNearbyEmotions 0 (1/2) ↔
      (({ id := 3, name := "ecstasy", category := EmotionCategory.Joy, intensity := 1,
          valence := 0.95, arousal := 0.95,
          musicalAttributes := ⟨1.225, "major", 1⟩ } : EmotionNode) ∈ EmotionEngine.make.nodes_ ∧
        ({ id := 3, name := "ecstasy", category := EmotionCategory.Joy, intensity := 1,
           valence := 0.95, arousal := 0.95,
           musicalAttributes := ⟨1.225, "major", 1⟩ } : EmotionNode).id ≠ 0 ∧
        calculateDistance
          { id := 0, name := "euphoria", category := EmotionCategory.Joy, intensity := 1,
            valence := 1, arousal := 1, musicalAttributes := ⟨1.25, "major", 1⟩ }
          { id := 3, name := "ecstasy", category := EmotionCategory.Joy, intensity := 1,
            valence := 0.95, arousal := 0.95,
            musicalAttributes := ⟨1.225, "major", 1⟩ } < ((1/2 : ℚ) : ℝ))) :=
  ⟨(C8_neighbors EmotionEngine.make 216 (1/2)).1 (by decide),
   (C8_neighbors EmotionEngine.make 0 (1/2)).2
     { id := 0, name := "euphoria", category := EmotionCategory.Joy, intensity := 1,
       valence := 1, arousal := 1, musicalAttributes := ⟨1.25, "major", 1⟩ }
     (by decide) _⟩

/-- Lookup after a map insertion: the inserted key reads back the new
value, other keys are untouched. -/
theorem StrMap.find?_insert (m : StrMap) (k : String) (v : MusicalValue) (k₂ : String) :
    StrMap.find? (StrMap.insert m k v) k₂ = if k₂ = k then some v else StrMap.find? m k₂ := by
  induction m with
  | nil => simp [StrMap.insert, StrMap.find?]
  | cons kv rest ih =>
    obtain ⟨k₃, v₃⟩ := kv
    unfold StrMap.insert
    by_cases h1 : stringLess k k₃
    · rw [if_pos h1]
      rfl
    · rw [if_neg h1]
      by_cases h2 : k = k₃
      · rw [if_pos h2]
        unfold StrMap.find?
        subst h2
        by_cases h3 : k₂ = k <;> simp [h3]
      · rw [if_neg h2]
        unfold StrMap.find?
        by_cases h3 : k₂ = k₃
        · subst h3
          rw [if_pos rfl, if_neg (fun hc => h2 hc.symm), if_pos rfl]
        · rw [if_neg h3, ih]
          by_cases h4 : k₂ = k <;> simp [h4, h3]

/-- Folding a write list into a map: the value at a key is the last write
to that key when there is one, and the original binding otherwise. -/
theorem find?_foldl_insert (ws : List (String × MusicalValue)) (m : StrMap) (k : String) :
    StrMap.find? (ws.foldl (fun acc kv => StrMap.insert acc kv.1 kv.2) m) k =
      ((ws.reverse.find? fun kv => kv.1 == k).map Prod.snd).or (StrMap.find? m k) := by
  induction ws generalizing m with
  | nil => simp
  | cons kv ws ih =>
    rw [List.foldl_cons, ih, List.reverse_cons, List.find?_append, Option.map_or',
      Option.or_assoc]
    congr 1
    rw [StrMap.find?_insert]
    by_cases h : k = kv.1
    · subst h
      simp
    · have hb : (kv.1 == k) = false := beq_eq_false_iff_ne.mpr fun hc => h hc.symm
      simp [if_neg h, List.find?, hb]

/-- Splicing the per-rule-break write loops into one write list. -/
theorem foldl_flatMap_insert (rbs : List RuleBreak) (m : StrMap) :
    rbs.foldl (fun acc rb => rb.musicalImpact.foldl (fun m kv => StrMap.insert m kv.1 kv.2) acc) m =
      (rbs.flatMap fun rb => rb.musicalImpact).foldl
        (fun acc kv => StrMap.insert acc kv.1 kv.2) m := by
  induction rbs generalizing m with
  | nil => simp
  | cons rb rbs ih => rw [List.foldl_cons, ih, List.flatMap_cons, List.foldl_append]

/-- The compiled parameter map is the seed overlaid with the concatenated
rule-break writes. -/
theorem compile_eq_foldl (emo : EmotionNode) (rbs : List RuleBreak) :
    compileMusicalParams emo rbs =
      (rbs.flatMap fun rb => rb.musicalImpact).foldl
        (fun acc kv => StrMap.insert acc kv.1 kv.2) (compileMusicalParams emo []) := by
  unfold compileMusicalParams
  rw [foldl_flatMap_insert]
  rfl

/-- Value lookup in the compiled parameter map: last rule-break write wins,
else the seeded value. -/
theorem compile_find? (emo : EmotionNode) (rbs : List RuleBreak) (k : String) :
    StrMap.find? (compileMusicalParams emo rbs) k =
      (((rbs.flatMap fun rb => rb.musicalImpact).reverse.find? fun kv => kv.1 == k).map
        Prod.snd).or (StrMap.find? (compileMusicalParams emo []) k) := by
  rw [compile_eq_foldl, find?_foldl_insert]

/-- A key with a binding is among the map keys. -/
theorem mem_keys_of_find? {m : StrMap} {k : String} {v : MusicalValue}
    (h : StrMap.find? m k = some v) : k ∈ m.map Prod.fst := by
  induction m with
  | nil => simp [StrMap.find?] at h
  | cons kv rest ih =>
    unfold StrMap.find? at h
    by_cases h2 : k = kv.1
    · simp [h2]
    · obtain ⟨k₃, v₃⟩ := kv
      simp only at h2
      rw [if_neg h2] at h
      simp [ih h]

/-- The three seeded keys survive every overlay. -/
theorem compile_isSome_seeded (emo : EmotionNode) (rbs : List RuleBreak) :
    (StrMap.find? (compileMusicalParams emo rbs) "tempo_modifier").isSome ∧
    (StrMap.find? (compileMusicalParams emo rbs) "mode").isSome ∧
    (StrMap.find? (compileMusicalParams emo rbs) "dynamics").isSome := by
  refine ⟨?_, ?_, ?_⟩ <;>
  · rw [compile_find?]
    simp [Option.isSome_or, compileMusicalParams, StrMap.insert, StrMap.find?]

/-- The compiled map never has fewer than three entries. -/
theorem compile_length_ge_three (emo : EmotionNode) (rbs : List RuleBreak) :
    3 ≤ (compileMusicalParams emo rbs).length := by
  obtain ⟨hT, hM, hD⟩ := compile_isSome_seeded emo rbs
  rw [Option.isSome_iff_exists] at hT hM hD
  obtain ⟨vT, hT⟩ := hT
  obtain ⟨vM, hM⟩ := hM
  obtain ⟨vD, hD⟩ := hD
  have hsub : ({"tempo_modifier", "mode", "dynamics"} : Finset String) ⊆
      ((compileMusicalParams emo rbs).map Prod.fst).toFinset := by
    intro x hx
    rw [List.mem_toFinset]
    rcases Finset.mem_insert.mp hx with rfl | hx
    · exact mem_keys_of_find? hT
    rcases Finset.mem_insert.mp hx with rfl | hx
    · exact mem_keys_of_find? hM
    rw [Finset.mem_singleton] at hx
    subst hx
    exact mem_keys_of_find? hD
  have h1 : 3 ≤ ((compileMusicalParams emo rbs).map Prod.fst).toFinset.card := by
    have := Finset.card_le_card hsub
    simpa using this
  have h2 := List.toFinset_card_le ((compileMusicalParams emo rbs).map Prod.fst)
  rw [List.length_map] at h2
  exact le_trans h1 h2

/-- C4: parameter compilation seeds exactly the three base entries
(tempo_modifier, mode, dynamics from the emotion's musical attributes),
then overlays every rule-break impact key in order with later writes
winning; in particular the last write to a key by the second of two rule
breaks is the value found in the result. -/
theorem C4_parameter_overlay (emo : EmotionNode) (rbs : List RuleBreak) (k : String) :
    compileMusicalParams emo [] =
      [("dynamics", MusicalValue.num emo.musicalAttributes.dynamics),
       ("mode", MusicalValue.str emo.musicalAttributes.mode),
       ("tempo_modifier", MusicalValue.num emo.musicalAttributes.tempoModifier)] ∧
    StrMap.find? (compileMusicalParams emo rbs) k =
      (((rbs.flatMap fun rb => rb.musicalImpact).reverse.find? fun kv => kv.1 == k).map
        Prod.snd).or (StrMap.find? (compileMusicalParams emo []) k) ∧
    (∀ rb₁ rb₂ : RuleBreak, ∀ v : String × MusicalValue,
      rb₂.musicalImpact.reverse.find? (fun kv => kv.1 == k) = some v →
      StrMap.find? (compileMusicalParams emo [rb₁, rb₂]) k = some v.2) := by
  refine ⟨by rfl, compile_find? emo rbs k, ?_⟩
  intro rb₁ rb₂ v hv
  rw [compile_find? emo [rb₁, rb₂] k]
  simp [List.reverse_append, List.find?_append, hv]

theorem C4_parameter_overlay_witness :
    StrMap.find?
      (compileMusicalParams
        { id := 0, name := "euphoria", category := EmotionCategory.Joy, intensity := 1,
          valence := 1, arousal := 1, musicalAttributes := ⟨1.25, "major", 1⟩ }
        [{ ruleType := "harmony", severity := 1, description := "a",
           musicalImpact := [("x", MusicalValue.num 1)] },
         { ruleType := "rhythm", severity := 1, description := "b",
           musicalImpact := [("x", MusicalValue.num 2)] }]) "x" =
      some (MusicalValue.num 2) :=
  (C4_parameter_overlay
      { id := 0, name := "euphoria", category := EmotionCategory.Joy, intensity := 1,
        valence := 1, arousal := 1, musicalAttributes := ⟨1.25, "major", 1⟩ }
      [] "x").2.2
    { ruleType := "harmony", severity := 1, description := "a",
      musicalImpact := [("x", MusicalValue.num 1)] }
    { ruleType := "rhythm", severity := 1, description := "b",
      musicalImpact := [("x", MusicalValue.num 2)] }
    ("x", MusicalValue.num 2) (by decide)

/-- C10: every compiled parameter map binds the three seeded keys and so
has at least three entries; consequently a `processIntent` result carries
an empty parameter map exactly when its emotion lookup failed. -/
theorem C10_empty_params_sentinel (emo : EmotionNode) (rbs : List RuleBreak) :
    (StrMap.find? (compileMusicalParams emo rbs) "tempo_modifier").isSome ∧
    (StrMap.find? (compileMusicalParams emo rbs) "mode").isSome ∧
    (StrMap.find? (compileMusicalParams emo rbs) "dynamics").isSome ∧
    3 ≤ (compileMusicalParams emo rbs).length ∧
    (∀ p : IntentProcessor, ∀ w : Wound,
      ((p.processIntent w).2.musicalParams = [] ↔ (p.processIntent w).2.emotion = none)) := by
  obtain ⟨hT, hM, hD⟩ := compile_isSome_seeded emo rbs
  refine ⟨hT, hM, hD, compile_length_ge_three emo rbs, ?_⟩
  intro p w
  unfold IntentProcessor.processIntent
  rcases hpw : p.processWound w with ⟨p₂, e?⟩
  rcases e? with _ | e
  · exact iff_of_true rfl rfl
  · refine iff_of_false (fun h => ?_) (Option.some_ne_none e)
    have h2 : compileMusicalParams e (p₂.emotionToRuleBreaks e).2 = [] := h
    have h3 := compile_length_ge_three e (p₂.emotionToRuleBreaks e).2
    rw [h2] at h3
    simp at h3

/-- The classification step only appends the wound to the history log. -/
theorem processWound_fst (p : IntentProcessor) (w : Wound) :
    (p.processWound w).1 = { p with woundHistory_ := p.woundHistory_ ++ [w] } := by
  unfold IntentProcessor.processWound
  dsimp only
  split_ifs <;> rfl

/-- The classification result depends only on the engine and the wound. -/
theorem processWound_snd_engine (p₁ p₂ : IntentProcessor) (w : Wound)
    (h : p₁.engine_ = p₂.engine_) :
    (p₁.processWound w).2 = (p₂.processWound w).2 := by
  unfold IntentProcessor.processWound
  rw [h]
  dsimp only
  split_ifs <;> rfl

unseal Rat.ofScientific Rat.mul Rat.sub Rat.add Rat.inv in
/-- Against the constructed catalog, classification always finds a node. -/
theorem processWound_snd_isSome (p : IntentProcessor) (w : Wound)
    (hp : p.engine_ = EmotionEngine.make) :
    ((p.processWound w).2).isSome := by
  unfold IntentProcessor.processWound
  rw [hp]
  dsimp only
  split_ifs <;> · dsimp only
                  decide

/-- One-step unfolding of `processIntent` into its observable pieces. -/
theorem processIntent_spec (p : IntentProcessor) (w : Wound) :
    p.processIntent w =
      (match (p.processWound w).2 with
       | some e =>
         ({ engine_ := p.engine_,
            woundHistory_ := p.woundHistory_ ++ [w],
            ruleBreaks_ := p.ruleBreaks_ ++ ruleBreaksFor e },
          { wound := w, emotion := some e, ruleBreaks := ruleBreaksFor e,
            musicalParams := compileMusicalParams e (ruleBreaksFor e) })
       | none =>
         ({ engine_ := p.engine_,
            woundHistory_ := p.woundHistory_ ++ [w],
            ruleBreaks_ := p.ruleBreaks_ },
          { wound := w, emotion := none, ruleBreaks := [], musicalParams := [] })) := by
  unfold IntentProcessor.processIntent
  rcases hpw : p.processWound w with ⟨p₂, e?⟩
  have h1 : p₂ = { p with woundHistory_ := p.woundHistory_ ++ [w] } := by
    have h2 := processWound_fst p w
    rw [hpw] at h2
    exact h2
  rcases e? with _ | e
  · dsimp only
    rw [h1]
  · dsimp only [IntentProcessor.emotionToRuleBreaks]
    rw [h1]

unseal Rat.ofScientific Rat.mul Rat.sub Rat.add Rat.inv in
/-- C2: classification lower-cases the description and tests the fixed
trigger substrings in priority order with first match winning, returning
the emotion named grief, rage, anxiety, or (by default) melancholy. -/
theorem C2_classification (p : IntentProcessor) (w : Wound)
    (hp : p.engine_ = EmotionEngine.make) :
    ((p.processWound w).2).map (fun n => n.name) =
      some
        (if strContains (w.description.toList.map Char.toLower) "loss".toList ||
            strContains (w.description.toList.map Char.toLower) "grief".toList then "grief"
         else if strContains (w.description.toList.map Char.toLower) "anger".toList ||
            strContains (w.description.toList.map Char.toLower) "rage".toList then "rage"
         else if strContains (w.description.toList.map Char.toLower) "fear".toList ||
            strContains (w.description.toList.map Char.toLower) "anxiety".toList then "anxiety"
         else "melancholy") := by
  unfold IntentProcessor.processWound
  rw [hp]
  dsimp only
  split_ifs <;> · dsimp only
                  decide

unseal Rat.ofScientific Rat.mul Rat.sub Rat.add Rat.inv in
theorem C2_classification_witness :
    ((IntentProcessor.make.processWound ⟨"I feel overwhelming loss", 0, ""⟩).2).map
      (fun n => n.name) = some "grief" ∧
    ((IntentProcessor.make.processWound ⟨"pure rage inside", 0, ""⟩).2).map
      (fun n => n.name) = some "rage" ∧
    ((IntentProcessor.make.processWound ⟨"constant anxiety", 0, ""⟩).2).map
      (fun n => n.name) = some "anxiety" ∧
    ((IntentProcessor.make.processWound ⟨"a quiet afternoon", 0, ""⟩).2).map
      (fun n => n.name) = some "melancholy" := by
  refine ⟨?_, ?_, ?_, ?_⟩ <;>
  · rw [C2_classification IntentProcessor.make _ rfl]
    decide

unseal Rat.ofScientific Rat.mul Rat.sub Rat.add Rat.inv in
/-- C3: rule derivation checks the three independent thresholds in fixed
order, emitting a dynamics break (severity = intensity), a harmony break
(severity = |valence|), and a rhythm break (severity = arousal); the
produced list is returned and appended to the cumulative log; "terror"
fires all three in order and "contentment_low" fires none. -/
theorem C3_rule_break_rules (p : IntentProcessor) (emo : EmotionNode) :
    (ruleBreaksFor emo).map (fun rb => (rb.ruleType, rb.severity)) =
      (if emo.intensity > 0.8 then [("dynamics", emo.intensity)] else []) ++
      (if emo.valence < -0.5 then [("harmony", |emo.valence|)] else []) ++
      (if emo.arousal > 0.7 then [("rhythm", emo.arousal)] else []) ∧
    (p.emotionToRuleBreaks emo).2 = ruleBreaksFor emo ∧
    (p.emotionToRuleBreaks emo).1.ruleBreaks_ = p.ruleBreaks_ ++ ruleBreaksFor emo ∧
    (EmotionEngine.make.findEmotionByName "terror").map
      (fun n => (ruleBreaksFor n).map (fun rb => rb.ruleType)) =
      some ["dynamics", "harmony", "rhythm"] ∧
    (EmotionEngine.make.findEmotionByName "contentment_low").map
      (fun n => ruleBreaksFor n) = some [] := by
  refine ⟨?_, rfl, rfl, by decide, by decide⟩
  unfold ruleBreaksFor
  split_ifs <;> simp

unseal Rat.ofScientific Rat.mul Rat.sub Rat.add Rat.inv in
/-- C5: with the constructed catalog every wound classifies to a present
emotion (grief, rage, anxiety and melancholy all exist at base tier); when
the lookup nevertheless fails the result degrades to empty rule breaks and
parameters instead of failing. -/
theorem C5_lookup_robustness (p : IntentProcessor) (w : Wound) :
    (p.engine_ = EmotionEngine.make → ∃ e, (p.processIntent w).2.emotion = some e) ∧
    (∀ nm ∈ (["grief", "rage", "anxiety", "melancholy"] : List String),
      ((EmotionEngine.make.findEmotionByName nm).map fun n => (n.name, n.intensity)) =
        some (nm, 1)) ∧
    ((p.processIntent w).2.emotion = none →
      (p.processIntent w).2.ruleBreaks = [] ∧ (p.processIntent w).2.musicalParams = []) := by
  refine ⟨?_, by decide, ?_⟩
  · intro hp
    have hs := processWound_snd_isSome p w hp
    rw [processIntent_spec]
    rcases hpw : (p.processWound w).2 with _ | e
    · rw [hpw] at hs
      simp at hs
    · exact ⟨e, rfl⟩
  · intro h
    rw [processIntent_spec] at h ⊢
    rcases hpw : (p.processWound w).2 with _ | e
    · exact ⟨rfl, rfl⟩
    · rw [hpw] at h
      exact absurd h (Option.some_ne_none e)

unseal Rat.ofScientific Rat.mul Rat.sub Rat.add Rat.inv in
theorem C5_lookup_robustness_witness :
    (∃ e, (IntentProcessor.make.processIntent ⟨"a quiet afternoon", 0, ""⟩).2.emotion =
      some e) ∧
    ((({ engine_ := ⟨[]⟩, woundHistory_ := [], ruleBreaks_ := [] } :
        IntentProcessor).processIntent ⟨"a quiet afternoon", 0, ""⟩).2.ruleBreaks = [] ∧
      (({ engine_ := ⟨[]⟩, woundHistory_ := [], ruleBreaks_ := [] } :
        IntentProcessor).processIntent ⟨"a quiet afternoon", 0, ""⟩).2.musicalParams = []) :=
  ⟨(C5_lookup_robustness IntentProcessor.make ⟨"a quiet afternoon", 0, ""⟩).1 rfl,
   (C5_lookup_robustness { engine_ := ⟨[]⟩, woundHistory_ := [], ruleBreaks_ := [] }
     ⟨"a quiet afternoon", 0, ""⟩).2.2 (by decide)⟩

/-- C9: for a fixed engine the produced result depends only on the wound;
a call changes no state besides appending the wound to the history and the
produced breaks to the rule-break log. -/
theorem C9_result_determinism (p₁ p₂ : IntentProcessor) (w : Wound)
    (h : p₁.engine_ = p₂.engine_) :
    (p₁.processIntent w).2 = (p₂.processIntent w).2 ∧
    (p₁.processIntent w).1.engine_ = p₁.engine_ ∧
    (p₁.processIntent w).1.woundHistory_ = p₁.woundHistory_ ++ [w] ∧
    (p₁.processIntent w).1.ruleBreaks_ =
      p₁.ruleBreaks_ ++ (p₁.processIntent w).2.ruleBreaks := by
  have hsnd := processWound_snd_engine p₁ p₂ w h
  refine ⟨?_, ?_, ?_, ?_⟩
  · rw [processIntent_spec p₁ w, processIntent_spec p₂ w, hsnd]
    cases hx : (p₂.processWound w).2 <;> rfl
  · rw [processIntent_spec p₁ w]
    cases hx : (p₁.processWound w).2 <;> rfl
  · rw [processIntent_spec p₁ w]
    cases hx : (p₁.processWound w).2 <;> rfl
  · rw [processIntent_spec p₁ w]
    cases hx : (p₁.processWound w).2 <;> simp

theorem C9_result_determinism_witness :
    (IntentProcessor.make.processIntent ⟨"pure rage inside", 0, ""⟩).2 =
      (IntentProcessor.make.processIntent ⟨"pure rage inside", 0, ""⟩).2 ∧
    (IntentProcessor.make.processIntent ⟨"pure rage inside", 0, ""⟩).1.engine_ =
      IntentProcessor.make.engine_ ∧
    (IntentProcessor.make.processIntent ⟨"pure rage inside", 0, ""⟩).1.woundHistory_ =
      IntentProcessor.make.woundHistory_ ++ [⟨"pure rage inside", 0, ""⟩] ∧
    (IntentProcessor.make.processIntent ⟨"pure rage inside", 0, ""⟩).1.ruleBreaks_ =
      IntentProcessor.make.ruleBreaks_ ++
        (IntentProcessor.make.processIntent ⟨"pure rage inside", 0, ""⟩).2.ruleBreaks :=
  C9_result_determinism IntentProcessor.make IntentProcessor.make ⟨"pure rage inside", 0, ""⟩ rfl

end Kelly
